import Mathlib

/-!
Verification development for the credential resolver of the
ds_101_python_lessons repository (lesson_1_scraping_reddit/reddit_auth.py).

The resolver `setup_reddit_connection` and its inner helper
`decrypt_credential` are shallowly embedded as pure Lean functions over an
explicit `World` that supplies the behavior of every external interaction:
environment-variable reads, the optional encrypted-config module, the
Fernet / base64 decoding libraries, client construction, the identity
self-check and the connectivity probe.  Every external call the resolver
makes is also recorded in an event trace, so that ordering properties
(which calls happened, which diagnostics were printed) can be stated.

Python exceptions are modelled by the `Exn` type: the `isImportError` flag
distinguishes an ImportError (caught separately in the source) from any
other Exception.  A call that can raise returns a `PyResult`.
-/

set_option autoImplicit false

namespace RedditAuth

/-- A Python exception value: `isImportError` is true exactly for
ImportError (handled by its own `except` clause in the source), and `msg`
is the exception's rendered message. -/
structure Exn where
  isImportError : Bool
  msg : String
deriving DecidableEq

/-- Result of a Python expression that may raise: either a value or a
raised exception. -/
inductive PyResult (α : Type) where
  | ok : α → PyResult α
  | raise : Exn → PyResult α
deriving DecidableEq

/-- The optional module `lesson_1_scraping_reddit.reddit_config_encrypted`:
the six names the source imports from it. -/
structure ConfigModule where
  ENCRYPTED_USERNAME : String
  ENCRYPTED_PASSWORD : String
  ENCRYPTION_KEY : String
  REDDIT_CLIENT_ID : String
  REDDIT_CLIENT_SECRET : String
  USER_AGENT : String
deriving DecidableEq

/-- A praw.Reddit client handle, identified by the keyword arguments the
source passes to the constructor; the read-only constructions pass no
username/password, modelled here as `none`. -/
structure RedditClient where
  client_id : String
  client_secret : String
  username : Option String
  password : Option String
  user_agent : String
deriving DecidableEq

/-- One recorded external interaction of the resolver. -/
inductive Event where
  | importConfig : Event
  | construct : RedditClient → Event
  | userMe : RedditClient → Event
  | subredditHot : RedditClient → String → Nat → Event
  | print : String → Event
deriving DecidableEq

/-- The behavior of the outside world during one run: what each external
call returns (or raises) for each argument.  A `World` is fixed for a run,
which models external calls that behave identically when repeated. -/
structure World where
  getenv : String → Option String
  importConfig : PyResult ConfigModule
  fernetDecrypt : String → String → PyResult String
  b64decode : String → PyResult String
  construct : RedditClient → PyResult Unit
  userMe : RedditClient → PyResult String
  subredditHot : RedditClient → String → Nat → PyResult String

/-- Python truthiness of an optional string: `None` and the empty string
are falsy, every other string is truthy. -/
def truthy : Option String → Bool
  | none => false
  | some s => !s.isEmpty

def defaultClientId : String := "BQ9nZDrIpdsq_2d67qopWw"

def defaultClientSecret : String := "EE8yF4d_F6i-Kc30HPWtaRRobELhSQ"

def defaultUserAgent : String := "educational-scraper/1.0 (for academic research)"

/-- Embedding of the inner helper decrypt_credential.  The primary path
(the cryptography import plus Fernet decryption) is one external call
`fernetDecrypt`; an ImportError from it selects the base64 fallback on the
same ciphertext (the source's first `except` clause), any other exception
yields None (the second clause), and any exception in the fallback also
yields None (the bare `except` around b64decode). -/
def decrypt_credential (w : World) (encrypted_data key : String) :
    PyResult (Option String) :=
  match w.fernetDecrypt encrypted_data key with
  | .ok s => .ok (some s)
  | .raise e =>
    if e.isImportError then
      match w.b64decode encrypted_data with
      | .ok s => .ok (some s)
      | .raise _ => .ok none
    else
      .ok none

/-- The credential-resolution half of setup_reddit_connection: environment
variables first; if that pair is incomplete, the encrypted config module
is loaded (recorded as an `Event.importConfig`), its identity fields replace
the defaults, and both credential fields are decrypted; a half-resolved or
failed decryption discards both fields.  Any exception from the import is
absorbed (`except ImportError` / `except Exception`, both pass).  The two
branches in which a decrypt_credential call raises mirror the source: the
enclosing `except Exception: pass` would leave whatever assignments had
already happened in place. -/
structure ResolvedConfig where
  reddit_username : Option String
  reddit_password : Option String
  client_id : String
  client_secret : String
  user_agent : String
  trace : List Event
deriving DecidableEq

def resolveCreds (w : World) : ResolvedConfig :=
  let reddit_username := w.getenv "REDDIT_USERNAME"
  let reddit_password := w.getenv "REDDIT_PASSWORD"
  if !(truthy reddit_username) || !(truthy reddit_password) then
    match w.importConfig with
    | .raise _ =>
      ⟨reddit_username, reddit_password, defaultClientId, defaultClientSecret,
        defaultUserAgent, [Event.importConfig]⟩
    | .ok m =>
      match decrypt_credential w m.ENCRYPTED_USERNAME m.ENCRYPTION_KEY with
      | .raise _ =>
        ⟨reddit_username, reddit_password, m.REDDIT_CLIENT_ID,
          m.REDDIT_CLIENT_SECRET, m.USER_AGENT, [Event.importConfig]⟩
      | .ok u1 =>
        match decrypt_credential w m.ENCRYPTED_PASSWORD m.ENCRYPTION_KEY with
        | .raise _ =>
          ⟨u1, reddit_password, m.REDDIT_CLIENT_ID, m.REDDIT_CLIENT_SECRET,
            m.USER_AGENT, [Event.importConfig]⟩
        | .ok p1 =>
          if !(truthy u1) || !(truthy p1) then
            ⟨none, none, m.REDDIT_CLIENT_ID, m.REDDIT_CLIENT_SECRET,
              m.USER_AGENT, [Event.importConfig]⟩
          else
            ⟨u1, p1, m.REDDIT_CLIENT_ID, m.REDDIT_CLIENT_SECRET,
              m.USER_AGENT, [Event.importConfig]⟩
  else
    ⟨reddit_username, reddit_password, defaultClientId, defaultClientSecret,
      defaultUserAgent, []⟩

/-- The value returned by a successful setup_reddit_connection:
(reddit instance, auth_mode, rate_limit). -/
abbrev SetupResult := RedditClient × String × Nat

/-- The praw.Reddit construction on the authenticated path, keyword for
keyword: client_id, client_secret, username, password, user_agent. -/
def mkAuthClient (client_id client_secret user_agent : String)
    (username password : Option String) : RedditClient :=
  ⟨client_id, client_secret, username, password, user_agent⟩

/-- The praw.Reddit construction on the read-only path: no username or
password is passed. -/
def mkRoClient (client_id client_secret user_agent : String) : RedditClient :=
  ⟨client_id, client_secret, none, none, user_agent⟩

/-- The six diagnostic lines printed by the outer exception handler before
the exception is re-raised. -/
def fatalPrints (e : Exn) : List Event :=
  [Event.print ("❌ Connection failed: " ++ e.msg),
   Event.print "💡 Possible solutions:",
   Event.print "   • Check internet connection",
   Event.print "   • Verify Reddit API credentials",
   Event.print "   • Try running the cell again",
   Event.print "   • Install required packages: pip install praw cryptography"]

/-- The final connectivity probe: reddit.subreddit("python") followed by
next(test_subreddit.hot(limit=1)), collapsed into one external fetch of
one hot post.  On success the triple is returned; on failure the outer
handler prints its diagnostics and re-raises the same exception. -/
def probeConnection (w : World) (reddit : RedditClient) (auth_mode : String)
    (rate_limit : Nat) : List Event × PyResult SetupResult :=
  match w.subredditHot reddit "python" 1 with
  | .ok _ =>
    ([Event.subredditHot reddit "python" 1], .ok (reddit, auth_mode, rate_limit))
  | .raise e =>
    (Event.subredditHot reddit "python" 1 :: fatalPrints e, .raise e)

/-- The connection half of setup_reddit_connection: with a truthy
credential pair, construct the authenticated client and run the identity
self-check reddit.user.me(); on any exception from the self-check fall
back to a freshly constructed read-only client with the same identity
fields.  Without a pair, construct read-only directly.  Both paths end in
the connectivity probe.  An exception raised by any of the constructor
calls escapes to the outer handler, which prints and re-raises. -/
def connectPhase (w : World) (client_id client_secret user_agent : String)
    (reddit_username reddit_password : Option String) :
    List Event × PyResult SetupResult :=
  if truthy reddit_username && truthy reddit_password then
    let authReddit : RedditClient :=
      mkAuthClient client_id client_secret user_agent reddit_username reddit_password
    match w.construct authReddit with
    | .raise e => (Event.construct authReddit :: fatalPrints e, .raise e)
    | .ok _ =>
      match w.userMe authReddit with
      | .ok _ =>
        let pr := probeConnection w authReddit "authenticated" 600
        (Event.construct authReddit :: Event.userMe authReddit :: pr.1, pr.2)
      | .raise _ =>
        let roReddit : RedditClient :=
          mkRoClient client_id client_secret user_agent
        match w.construct roReddit with
        | .raise e =>
          ([Event.construct authReddit, Event.userMe authReddit,
            Event.construct roReddit] ++ fatalPrints e, .raise e)
        | .ok _ =>
          let pr := probeConnection w roReddit "read-only" 60
          (Event.construct authReddit :: Event.userMe authReddit ::
            Event.construct roReddit :: pr.1, pr.2)
  else
    let roReddit : RedditClient :=
      mkRoClient client_id client_secret user_agent
    match w.construct roReddit with
    | .raise e => (Event.construct roReddit :: fatalPrints e, .raise e)
    | .ok _ =>
      let pr := probeConnection w roReddit "read-only" 60
      (Event.construct roReddit :: pr.1, pr.2)

/-- Embedding of setup_reddit_connection: resolve credentials, then
connect and probe; the run's event trace is the resolution trace followed
by the connection trace. -/
def setup_reddit_connection (w : World) : List Event × PyResult SetupResult :=
  let r := resolveCreds w
  let pr := connectPhase w r.client_id r.client_secret r.user_agent
    r.reddit_username r.reddit_password
  (r.trace ++ pr.1, pr.2)

/-- True for the connectivity-probe event, false for every other event. -/
def isProbeEvent : Event → Bool
  | .subredditHot _ _ _ => true
  | _ => false

/-- Number of connectivity-probe calls recorded in a trace. -/
def probeCount (t : List Event) : Nat :=
  (t.filter isProbeEvent).length

/-- The auth_mode of a run's outcome, when the run returned a triple. -/
def runAuthMode : List Event × PyResult SetupResult → Option String
  | (_, .ok (_, m, _)) => some m
  | (_, .raise _) => none

/-- The rate_limit of a run's outcome, when the run returned a triple. -/
def runRateLimit : List Event × PyResult SetupResult → Option Nat
  | (_, .ok (_, _, r)) => some r
  | (_, .raise _) => none

/-- Two back-to-back calls of the resolver against the same unchanged
world, as a pair of run outcomes. -/
def call_twice (w : World) :
    (List Event × PyResult SetupResult) × (List Event × PyResult SetupResult) :=
  (setup_reddit_connection w, setup_reddit_connection w)

/-- A sample encrypted-config module for concrete runs. -/
def cfg0 : ConfigModule :=
  ⟨"enc-user", "enc-pass", "key0", "cfg-id", "cfg-secret", "cfg-agent/1.0"⟩

/-- Concrete world: both environment variables set and non-empty, no
config module, the cryptography library absent (base64 fallback decodes
as the identity), and every client-facing call succeeds. -/
def authWorld : World :=
  ⟨fun n => if n = "REDDIT_USERNAME" then some "alice"
            else if n = "REDDIT_PASSWORD" then some "secret123" else none,
   .raise ⟨true, "No module named reddit_config_encrypted"⟩,
   fun _ _ => .raise ⟨true, "No module named cryptography"⟩,
   fun s => .ok s,
   fun _ => .ok (),
   fun _ => .ok "alice",
   fun _ _ _ => .ok "hot post"⟩

/-- Concrete world: no credentials from any source, clients construct
fine, but the connectivity probe raises (no network). -/
def probeFailWorld : World :=
  ⟨fun _ => none,
   .raise ⟨true, "No module named reddit_config_encrypted"⟩,
   fun _ _ => .raise ⟨true, "No module named cryptography"⟩,
   fun s => .ok s,
   fun _ => .ok (),
   fun _ => .ok "alice",
   fun _ _ _ => .raise ⟨false, "connection refused"⟩⟩

/-- Concrete world: both environment variables set, but constructing the
authenticated client raises; the probe itself would always succeed. -/
def constructFailWorld : World :=
  ⟨fun n => if n = "REDDIT_USERNAME" then some "alice"
            else if n = "REDDIT_PASSWORD" then some "secret123" else none,
   .raise ⟨true, "No module named reddit_config_encrypted"⟩,
   fun _ _ => .raise ⟨true, "No module named cryptography"⟩,
   fun s => .ok s,
   fun c => if c.username.isSome then .raise ⟨false, "praw configuration error"⟩
            else .ok (),
   fun _ => .ok "alice",
   fun _ _ _ => .ok "hot post"⟩

/-- Concrete world: both environment variables set, the identity
self-check raises, every construction succeeds and the probe succeeds. -/
def selfCheckFailWorld : World :=
  ⟨fun n => if n = "REDDIT_USERNAME" then some "alice"
            else if n = "REDDIT_PASSWORD" then some "secret123" else none,
   .raise ⟨true, "No module named reddit_config_encrypted"⟩,
   fun _ _ => .raise ⟨true, "No module named cryptography"⟩,
   fun s => .ok s,
   fun _ => .ok (),
   fun _ => .raise ⟨false, "received 401 HTTP response"⟩,
   fun _ _ _ => .ok "hot post"⟩

/-- Concrete world: both environment variables set, the self-check raises,
and the read-only fallback construction also raises. -/
def roCtorFailWorld : World :=
  ⟨fun n => if n = "REDDIT_USERNAME" then some "alice"
            else if n = "REDDIT_PASSWORD" then some "secret123" else none,
   .raise ⟨true, "No module named reddit_config_encrypted"⟩,
   fun _ _ => .raise ⟨true, "No module named cryptography"⟩,
   fun s => .ok s,
   fun c => if c.username.isSome then .ok ()
            else .raise ⟨false, "fallback constructor failed"⟩,
   fun _ => .raise ⟨false, "received 401 HTTP response"⟩,
   fun _ _ _ => .ok "hot post"⟩

/-- Concrete world: no environment variables, the config module imports,
but decryption fails with a wrong key (Fernet raises InvalidToken). -/
def cfgWorld : World :=
  ⟨fun _ => none,
   .ok cfg0,
   fun _ _ => .raise ⟨false, "InvalidToken"⟩,
   fun s => .ok s,
   fun _ => .ok (),
   fun _ => .ok "alice",
   fun _ _ _ => .ok "hot post"⟩

/-- Concrete world: no environment variables and no importable config
module; clients construct fine and the probe succeeds. -/
def noCredWorld : World :=
  ⟨fun _ => none,
   .raise ⟨true, "No module named reddit_config_encrypted"⟩,
   fun _ _ => .raise ⟨true, "No module named cryptography"⟩,
   fun s => .ok s,
   fun _ => .ok (),
   fun _ => .ok "alice",
   fun _ _ _ => .ok "hot post"⟩

/-- The truthiness of None, used to reduce the discard test. -/
@[simp] theorem truthy_none : truthy none = false := rfl

/-- A truthy optional string is some non-empty string. -/
theorem truthy_eq_true (o : Option String) (h : truthy o = true) :
    ∃ s, o = some s ∧ s ≠ "" := by
  cases o with
  | none => exact absurd h (by decide)
  | some s =>
    refine ⟨s, rfl, fun hs => ?_⟩
    subst hs
    exact absurd h (by decide)

/-- decrypt_credential never raises: every outcome is a returned value. -/
theorem decrypt_credential_never_raises (w : World) (encrypted_data key : String) :
    ∃ r, decrypt_credential w encrypted_data key = .ok r := by
  rcases hf : w.fernetDecrypt encrypted_data key with s | e
  · exact ⟨some s, by simp [decrypt_credential, hf]⟩
  · by_cases hie : e.isImportError = true
    · rcases hb : w.b64decode encrypted_data with s | e2
      · exact ⟨some s, by simp [decrypt_credential, hf, hie, hb]⟩
      · exact ⟨none, by simp [decrypt_credential, hf, hie, hb]⟩
    · exact ⟨none, by simp [decrypt_credential, hf, hie]⟩

/-- Unfolding of the resolver into its resolution and connection halves. -/
theorem setup_reddit_connection_def (w : World) :
    setup_reddit_connection w =
      ((resolveCreds w).trace ++
        (connectPhase w (resolveCreds w).client_id (resolveCreds w).client_secret
          (resolveCreds w).user_agent (resolveCreds w).reddit_username
          (resolveCreds w).reddit_password).1,
       (connectPhase w (resolveCreds w).client_id (resolveCreds w).client_secret
          (resolveCreds w).user_agent (resolveCreds w).reddit_username
          (resolveCreds w).reddit_password).2) := rfl

/-- With a truthy environment pair, resolution uses it directly: the config
module is never imported and the default identity fields stay in place. -/
theorem resolveCreds_env (w : World)
    (hu : truthy (w.getenv "REDDIT_USERNAME") = true)
    (hp : truthy (w.getenv "REDDIT_PASSWORD") = true) :
    resolveCreds w =
      ⟨w.getenv "REDDIT_USERNAME", w.getenv "REDDIT_PASSWORD",
       defaultClientId, defaultClientSecret, defaultUserAgent, []⟩ := by
  simp [resolveCreds, hu, hp]

/-- With an incomplete environment pair and an unimportable or erroring
config module, resolution keeps the environment values and the default
identity fields; the failed import is absorbed. -/
theorem resolveCreds_noConfig (w : World) (e : Exn)
    (hb : truthy (w.getenv "REDDIT_USERNAME") = false ∨
          truthy (w.getenv "REDDIT_PASSWORD") = false)
    (him : w.importConfig = .raise e) :
    resolveCreds w =
      ⟨w.getenv "REDDIT_USERNAME", w.getenv "REDDIT_PASSWORD",
       defaultClientId, defaultClientSecret, defaultUserAgent,
       [Event.importConfig]⟩ := by
  rcases hb with hb | hb <;> simp [resolveCreds, hb, him]

/-- Whenever the config module imports, its identity fields replace the
defaults, whatever the decryption outcomes. -/
theorem resolveCreds_config (w : World) (cfg : ConfigModule)
    (hb : truthy (w.getenv "REDDIT_USERNAME") = false ∨
          truthy (w.getenv "REDDIT_PASSWORD") = false)
    (him : w.importConfig = .ok cfg) :
    (resolveCreds w).client_id = cfg.REDDIT_CLIENT_ID ∧
    (resolveCreds w).client_secret = cfg.REDDIT_CLIENT_SECRET ∧
    (resolveCreds w).user_agent = cfg.USER_AGENT ∧
    (resolveCreds w).trace = [Event.importConfig] := by
  obtain ⟨u1, hu1⟩ :=
    decrypt_credential_never_raises w cfg.ENCRYPTED_USERNAME cfg.ENCRYPTION_KEY
  obtain ⟨p1, hp1⟩ :=
    decrypt_credential_never_raises w cfg.ENCRYPTED_PASSWORD cfg.ENCRYPTION_KEY
  cases hup : (!(truthy u1) || !(truthy p1)) <;>
    rcases hb with hb | hb <;>
    simp [resolveCreds, hb, him, hu1, hp1, hup]

/-- If either credential field decrypts to nothing, both are discarded and
the config identity fields stay in effect. -/
theorem resolveCreds_decrypt_failed (w : World) (cfg : ConfigModule)
    (hb : truthy (w.getenv "REDDIT_USERNAME") = false ∨
          truthy (w.getenv "REDDIT_PASSWORD") = false)
    (him : w.importConfig = .ok cfg)
    (hd : decrypt_credential w cfg.ENCRYPTED_USERNAME cfg.ENCRYPTION_KEY = .ok none ∨
          decrypt_credential w cfg.ENCRYPTED_PASSWORD cfg.ENCRYPTION_KEY = .ok none) :
    resolveCreds w =
      ⟨none, none, cfg.REDDIT_CLIENT_ID, cfg.REDDIT_CLIENT_SECRET,
       cfg.USER_AGENT, [Event.importConfig]⟩ := by
  rcases hd with hd | hd
  · obtain ⟨p1, hp1⟩ :=
      decrypt_credential_never_raises w cfg.ENCRYPTED_PASSWORD cfg.ENCRYPTION_KEY
    rcases hb with hb | hb <;> simp [resolveCreds, hb, him, hd, hp1]
  · obtain ⟨u1, hu1⟩ :=
      decrypt_credential_never_raises w cfg.ENCRYPTED_USERNAME cfg.ENCRYPTION_KEY
    rcases hb with hb | hb <;> simp [resolveCreds, hb, him, hu1, hd]

/-- Exhaustive description of the connection phase: with a truthy pair the
authenticated client is constructed and self-checked, falling back to a
fresh read-only client on a failed self-check; without a pair the
read-only client is constructed directly; both paths end in the single
connectivity probe, and every exception from a constructor or from the
probe reaches the printing re-raise handler. -/
theorem connectPhase_cases (w : World) (cid csec ua : String)
    (u p : Option String) :
    ((truthy u && truthy p) = true ∧
      ((∃ e, w.construct (mkAuthClient cid csec ua u p) = .raise e ∧
          connectPhase w cid csec ua u p =
            (Event.construct (mkAuthClient cid csec ua u p) :: fatalPrints e,
             .raise e)) ∨
        (w.construct (mkAuthClient cid csec ua u p) = .ok () ∧
          ((∃ v s, w.userMe (mkAuthClient cid csec ua u p) = .ok v ∧
              w.subredditHot (mkAuthClient cid csec ua u p) "python" 1 = .ok s ∧
              connectPhase w cid csec ua u p =
                ([Event.construct (mkAuthClient cid csec ua u p),
                  Event.userMe (mkAuthClient cid csec ua u p),
                  Event.subredditHot (mkAuthClient cid csec ua u p) "python" 1],
                 .ok (mkAuthClient cid csec ua u p, "authenticated", 600))) ∨
           (∃ v e, w.userMe (mkAuthClient cid csec ua u p) = .ok v ∧
              w.subredditHot (mkAuthClient cid csec ua u p) "python" 1 = .raise e ∧
              connectPhase w cid csec ua u p =
                (Event.construct (mkAuthClient cid csec ua u p) ::
                 Event.userMe (mkAuthClient cid csec ua u p) ::
                 Event.subredditHot (mkAuthClient cid csec ua u p) "python" 1 ::
                 fatalPrints e, .raise e)) ∨
           (∃ e2, w.userMe (mkAuthClient cid csec ua u p) = .raise e2 ∧
              ((∃ e, w.construct (mkRoClient cid csec ua) = .raise e ∧
                  connectPhase w cid csec ua u p =
                    ([Event.construct (mkAuthClient cid csec ua u p),
                      Event.userMe (mkAuthClient cid csec ua u p),
                      Event.construct (mkRoClient cid csec ua)] ++ fatalPrints e,
                     .raise e)) ∨
               (w.construct (mkRoClient cid csec ua) = .ok () ∧
                 ((∃ s, w.subredditHot (mkRoClient cid csec ua) "python" 1 = .ok s ∧
                     connectPhase w cid csec ua u p =
                       ([Event.construct (mkAuthClient cid csec ua u p),
                         Event.userMe (mkAuthClient cid csec ua u p),
                         Event.construct (mkRoClient cid csec ua),
                         Event.subredditHot (mkRoClient cid csec ua) "python" 1],
                        .ok (mkRoClient cid csec ua, "read-only", 60))) ∨
                  (∃ e, w.subredditHot (mkRoClient cid csec ua) "python" 1 =
                        .raise e ∧
                     connectPhase w cid csec ua u p =
                       (Event.construct (mkAuthClient cid csec ua u p) ::
                        Event.userMe (mkAuthClient cid csec ua u p) ::
                        Event.construct (mkRoClient cid csec ua) ::
                        Event.subredditHot (mkRoClient cid csec ua) "python" 1 ::
                        fatalPrints e, .raise e)))))))))) ∨
    ((truthy u && truthy p) = false ∧
      ((∃ e, w.construct (mkRoClient cid csec ua) = .raise e ∧
          connectPhase w cid csec ua u p =
            (Event.construct (mkRoClient cid csec ua) :: fatalPrints e,
             .raise e)) ∨
       (w.construct (mkRoClient cid csec ua) = .ok () ∧
         ((∃ s, w.subredditHot (mkRoClient cid csec ua) "python" 1 = .ok s ∧
             connectPhase w cid csec ua u p =
               ([Event.construct (mkRoClient cid csec ua),
                 Event.subredditHot (mkRoClient cid csec ua) "python" 1],
                .ok (mkRoClient cid csec ua, "read-only", 60))) ∨
          (∃ e, w.subredditHot (mkRoClient cid csec ua) "python" 1 = .raise e ∧
             connectPhase w cid csec ua u p =
               (Event.construct (mkRoClient cid csec ua) ::
                Event.subredditHot (mkRoClient cid csec ua) "python" 1 ::
                fatalPrints e, .raise e)))))) := by
  cases htp : (truthy u && truthy p) with
  | true =>
    left
    refine ⟨rfl, ?_⟩
    rcases hca : w.construct (mkAuthClient cid csec ua u p) with ⟨⟩ | e
    · right
      refine ⟨rfl, ?_⟩
      rcases hme : w.userMe (mkAuthClient cid csec ua u p) with v | e2
      · rcases hhot : w.subredditHot (mkAuthClient cid csec ua u p) "python" 1
          with s | e
        · exact Or.inl ⟨v, s, rfl, rfl, by
            simp [connectPhase, probeConnection, htp, hca, hme, hhot]⟩
        · exact Or.inr (Or.inl ⟨v, e, rfl, rfl, by
            simp [connectPhase, probeConnection, htp, hca, hme, hhot]⟩)
      · refine Or.inr (Or.inr ⟨e2, rfl, ?_⟩)
        rcases hcb : w.construct (mkRoClient cid csec ua) with ⟨⟩ | e
        · right
          refine ⟨rfl, ?_⟩
          rcases hhot : w.subredditHot (mkRoClient cid csec ua) "python" 1
            with s | e
          · exact Or.inl ⟨s, rfl, by
              simp [connectPhase, probeConnection, htp, hca, hme, hcb, hhot]⟩
          · exact Or.inr ⟨e, rfl, by
              simp [connectPhase, probeConnection, htp, hca, hme, hcb, hhot]⟩
        · exact Or.inl ⟨e, rfl, by
            simp [connectPhase, probeConnection, htp, hca, hme, hcb]⟩
    · exact Or.inl ⟨e, rfl, by simp [connectPhase, probeConnection, htp, hca]⟩
  | false =>
    right
    refine ⟨rfl, ?_⟩
    rcases hcb : w.construct (mkRoClient cid csec ua) with ⟨⟩ | e
    · right
      refine ⟨rfl, ?_⟩
      rcases hhot : w.subredditHot (mkRoClient cid csec ua) "python" 1 with s | e
      · exact Or.inl ⟨s, rfl, by
          simp [connectPhase, probeConnection, htp, hcb, hhot]⟩
      · exact Or.inr ⟨e, rfl, by
          simp [connectPhase, probeConnection, htp, hcb, hhot]⟩
    · exact Or.inl ⟨e, rfl, by simp [connectPhase, probeConnection, htp, hcb]⟩

/-- C8: decrypt_credential is total over its inputs: it always returns a
decoded string or None and never raises; an ImportError on the primary
cryptography path selects the base64 fallback on the same ciphertext
field, any other decoding exception yields None, and an exception inside
the fallback also yields None. -/
theorem decrypt_credential_total_with_fallback (w : World)
    (encrypted_data key : String) :
    (∃ r, decrypt_credential w encrypted_data key = .ok r) ∧
    (∀ e, w.fernetDecrypt encrypted_data key = .raise e →
      e.isImportError = true →
      decrypt_credential w encrypted_data key =
        (match w.b64decode encrypted_data with
         | .ok s => .ok (some s)
         | .raise _ => .ok none)) ∧
    (∀ e, w.fernetDecrypt encrypted_data key = .raise e →
      e.isImportError = false →
      decrypt_credential w encrypted_data key = .ok none) ∧
    (∀ e e2, w.fernetDecrypt encrypted_data key = .raise e →
      e.isImportError = true → w.b64decode encrypted_data = .raise e2 →
      decrypt_credential w encrypted_data key = .ok none) := by
  refine ⟨decrypt_credential_never_raises w encrypted_data key, ?_, ?_, ?_⟩
  · intro e hf hie
    simp [decrypt_credential, hf, hie]
  · intro e hf hie
    simp [decrypt_credential, hf, hie]
  · intro e e2 hf hie hb
    simp [decrypt_credential, hf, hie, hb]

/-- C8 witness: in the world where the cryptography library is absent the
fallback equation holds concretely. -/
theorem decrypt_credential_total_with_fallback_witness :
    decrypt_credential authWorld "enc-user" "key0" =
      (match authWorld.b64decode "enc-user" with
       | .ok s => .ok (some s)
       | .raise _ => .ok none) :=
  (decrypt_credential_total_with_fallback authWorld "enc-user" "key0").2.1
    ⟨true, "No module named cryptography"⟩ rfl rfl

/-- C9: the resolver is deterministic in its external inputs: two calls
against the same unchanged world (same environment, same config module,
identically-behaving external calls) produce identical outcomes, in
particular the same auth_mode and rate_limit; the embedding threads no
state from the first call to the second, matching the source, whose state
is all function-local. -/
theorem setup_deterministic (w : World) :
    (call_twice w).1 = (call_twice w).2 ∧
    runAuthMode (call_twice w).1 = runAuthMode (call_twice w).2 ∧
    runRateLimit (call_twice w).1 = runRateLimit (call_twice w).2 :=
  ⟨rfl, rfl, rfl⟩

/-- Inversion for successful connection runs: the probe succeeded on the
returned client, and the run was either the authenticated path (truthy
pair, self-check passed, 600) or a read-only path (60), the latter only
without a truthy pair or after a failed self-check. -/
theorem connect_ok_inv (w : World) (cid csec ua : String)
    (u p : Option String) (t : List Event) (c : RedditClient)
    (mo : String) (rl : Nat)
    (h : connectPhase w cid csec ua u p = (t, .ok (c, mo, rl))) :
    (∃ s, w.subredditHot c "python" 1 = .ok s) ∧
    ((truthy u = true ∧ truthy p = true ∧
       c = mkAuthClient cid csec ua u p ∧ mo = "authenticated" ∧ rl = 600 ∧
       (∃ v, w.userMe c = .ok v)) ∨
     (c = mkRoClient cid csec ua ∧ mo = "read-only" ∧ rl = 60 ∧
       ((truthy u && truthy p) = false ∨
        (∃ e2, w.userMe (mkAuthClient cid csec ua u p) = .raise e2)))) := by
  rcases connectPhase_cases w cid csec ua u p with ⟨htp, hcase⟩ | ⟨htp, hcase⟩
  · rcases hcase with ⟨e, hca, heq⟩ | ⟨hca, hcase⟩
    · rw [heq] at h
      simp at h
    · rcases hcase with ⟨v, s, hme, hhot, heq⟩ | hcase2
      · rw [heq] at h
        simp only [Prod.mk.injEq, PyResult.ok.injEq] at h
        obtain ⟨-, hc, hmo, hrl⟩ := h
        subst hc
        subst hmo
        subst hrl
        rw [Bool.and_eq_true] at htp
        exact ⟨⟨s, hhot⟩, Or.inl ⟨htp.1, htp.2, rfl, rfl, rfl, ⟨v, hme⟩⟩⟩
      · rcases hcase2 with ⟨v, e, hme, hhot, heq⟩ | ⟨e2, hme, hcase3⟩
        · rw [heq] at h
          simp at h
        · rcases hcase3 with ⟨e, hcb, heq⟩ | ⟨hcb, hcase4⟩
          · rw [heq] at h
            simp at h
          · rcases hcase4 with ⟨s, hhot, heq⟩ | ⟨e, hhot, heq⟩
            · rw [heq] at h
              simp only [Prod.mk.injEq, PyResult.ok.injEq] at h
              obtain ⟨-, hc, hmo, hrl⟩ := h
              subst hc
              subst hmo
              subst hrl
              exact ⟨⟨s, hhot⟩, Or.inr ⟨rfl, rfl, rfl, Or.inr ⟨e2, hme⟩⟩⟩
            · rw [heq] at h
              simp at h
  · rcases hcase with ⟨e, hcb, heq⟩ | ⟨hcb, hcase⟩
    · rw [heq] at h
      simp at h
    · rcases hcase with ⟨s, hhot, heq⟩ | ⟨e, hhot, heq⟩
      · rw [heq] at h
        simp only [Prod.mk.injEq, PyResult.ok.injEq] at h
        obtain ⟨-, hc, hmo, hrl⟩ := h
        subst hc
        subst hmo
        subst hrl
        exact ⟨⟨s, hhot⟩, Or.inr ⟨rfl, rfl, rfl, Or.inl htp⟩⟩
      · rw [heq] at h
        simp at h

/-- Every client constructed in the connection phase is the authenticated
client or the read-only client built from the in-effect identity fields. -/
theorem connect_trace_clients (w : World) (cid csec ua : String)
    (u p : Option String) (c : RedditClient)
    (hmem : Event.construct c ∈ (connectPhase w cid csec ua u p).1) :
    c = mkAuthClient cid csec ua u p ∨ c = mkRoClient cid csec ua := by
  rcases connectPhase_cases w cid csec ua u p with ⟨htp, hcase⟩ | ⟨htp, hcase⟩
  · rcases hcase with ⟨e, hca, heq⟩ | ⟨hca, hcase⟩
    · rw [heq] at hmem
      simp [fatalPrints] at hmem
      tauto
    · rcases hcase with ⟨v, s, hme, hhot, heq⟩ | hcase2
      · rw [heq] at hmem
        simp at hmem
        tauto
      · rcases hcase2 with ⟨v, e, hme, hhot, heq⟩ | ⟨e2, hme, hcase3⟩
        · rw [heq] at hmem
          simp [fatalPrints] at hmem
          tauto
        · rcases hcase3 with ⟨e, hcb, heq⟩ | ⟨hcb, hcase4⟩
          · rw [heq] at hmem
            simp [fatalPrints] at hmem
            tauto
          · rcases hcase4 with ⟨s, hhot, heq⟩ | ⟨e, hhot, heq⟩
            · rw [heq] at hmem
              simp [fatalPrints] at hmem
              tauto
            · rw [heq] at hmem
              simp [fatalPrints] at hmem
              tauto
  · rcases hcase with ⟨e, hcb, heq⟩ | ⟨hcb, hcase⟩
    · rw [heq] at hmem
      simp [fatalPrints] at hmem
      tauto
    · rcases hcase with ⟨s, hhot, heq⟩ | ⟨e, hhot, heq⟩
      · rw [heq] at hmem
        simp [fatalPrints] at hmem
        tauto
      · rw [heq] at hmem
        simp [fatalPrints] at hmem
        tauto

/-- The config-import event is never recorded by the connection phase. -/
theorem importConfig_not_mem_connect (w : World) (cid csec ua : String)
    (u p : Option String) :
    Event.importConfig ∉ (connectPhase w cid csec ua u p).1 := by
  rcases connectPhase_cases w cid csec ua u p with ⟨htp, hcase⟩ | ⟨htp, hcase⟩
  · rcases hcase with ⟨e, hca, heq⟩ | ⟨hca, hcase⟩
    · simp [heq, fatalPrints]
    · rcases hcase with ⟨v, s, hme, hhot, heq⟩ | hcase2
      · simp [heq]
      · rcases hcase2 with ⟨v, e, hme, hhot, heq⟩ | ⟨e2, hme, hcase3⟩
        · simp [heq, fatalPrints]
        · rcases hcase3 with ⟨e, hcb, heq⟩ | ⟨hcb, hcase4⟩
          · simp [heq, fatalPrints]
          · rcases hcase4 with ⟨s, hhot, heq⟩ | ⟨e, hhot, heq⟩
            · simp [heq]
            · simp [heq, fatalPrints]
  · rcases hcase with ⟨e, hcb, heq⟩ | ⟨hcb, hcase⟩
    · simp [heq, fatalPrints]
    · rcases hcase with ⟨s, hhot, heq⟩ | ⟨e, hhot, heq⟩
      · simp [heq]
      · simp [heq, fatalPrints]

/-- Without a truthy credential pair the read-only construction is always
attempted and recorded. -/
theorem connect_constructs_ro (w : World) (cid csec ua : String)
    (u p : Option String) (htp : (truthy u && truthy p) = false) :
    Event.construct (mkRoClient cid csec ua) ∈
      (connectPhase w cid csec ua u p).1 := by
  rcases connectPhase_cases w cid csec ua u p with ⟨htp2, hcase⟩ | ⟨htp2, hcase⟩
  · rw [htp] at htp2
    cases htp2
  · rcases hcase with ⟨e, hcb, heq⟩ | ⟨hcb, hcase⟩
    · simp [heq]
    · rcases hcase with ⟨s, hhot, heq⟩ | ⟨e, hhot, heq⟩
      · simp [heq]
      · simp [heq]

/-- If a probe event on client c is in the connection trace and the world
raises on that probe, the connection phase raises that same exception and
has printed the remediation banner. -/
theorem connect_probe_raise (w : World) (cid csec ua : String)
    (u p : Option String) (c : RedditClient)
    (hmem : Event.subredditHot c "python" 1 ∈ (connectPhase w cid csec ua u p).1)
    (e : Exn) (hpe : w.subredditHot c "python" 1 = .raise e) :
    (connectPhase w cid csec ua u p).2 = .raise e ∧
    Event.print "💡 Possible solutions:" ∈ (connectPhase w cid csec ua u p).1 := by
  rcases connectPhase_cases w cid csec ua u p with ⟨htp, hcase⟩ | ⟨htp, hcase⟩
  · rcases hcase with ⟨e1, hca, heq⟩ | ⟨hca, hcase⟩
    · rw [heq] at hmem
      simp [fatalPrints] at hmem
    · rcases hcase with ⟨v, s, hme, hhot, heq⟩ | hcase2
      · rw [heq] at hmem
        simp at hmem
        subst hmem
        rw [hpe] at hhot
        simp at hhot
      · rcases hcase2 with ⟨v, e1, hme, hhot, heq⟩ | ⟨e2, hme, hcase3⟩
        · rw [heq] at hmem
          simp [fatalPrints] at hmem
          subst hmem
          rw [hpe] at hhot
          simp only [PyResult.raise.injEq] at hhot
          subst hhot
          rw [heq]
          exact ⟨rfl, by simp [fatalPrints]⟩
        · rcases hcase3 with ⟨e1, hcb, heq⟩ | ⟨hcb, hcase4⟩
          · rw [heq] at hmem
            simp [fatalPrints] at hmem
          · rcases hcase4 with ⟨s, hhot, heq⟩ | ⟨e1, hhot, heq⟩
            · rw [heq] at hmem
              simp at hmem
              subst hmem
              rw [hpe] at hhot
              simp at hhot
            · rw [heq] at hmem
              simp [fatalPrints] at hmem
              subst hmem
              rw [hpe] at hhot
              simp only [PyResult.raise.injEq] at hhot
              subst hhot
              rw [heq]
              exact ⟨rfl, by simp [fatalPrints]⟩
  · rcases hcase with ⟨e1, hcb, heq⟩ | ⟨hcb, hcase⟩
    · rw [heq] at hmem
      simp [fatalPrints] at hmem
    · rcases hcase with ⟨s, hhot, heq⟩ | ⟨e1, hhot, heq⟩
      · rw [heq] at hmem
        simp at hmem
        subst hmem
        rw [hpe] at hhot
        simp at hhot
      · rw [heq] at hmem
        simp [fatalPrints] at hmem
        subst hmem
        rw [hpe] at hhot
        simp only [PyResult.raise.injEq] at hhot
        subst hhot
        rw [heq]
        exact ⟨rfl, by simp [fatalPrints]⟩

/-- A successful connection run records exactly one probe event: one hot
listing item from the subreddit "python" for the returned client. -/
theorem connect_ok_probe_unique (w : World) (cid csec ua : String)
    (u p : Option String) (t : List Event) (c : RedditClient)
    (mo : String) (rl : Nat)
    (h : connectPhase w cid csec ua u p = (t, .ok (c, mo, rl))) :
    t.filter isProbeEvent = [Event.subredditHot c "python" 1] := by
  rcases connectPhase_cases w cid csec ua u p with ⟨htp, hcase⟩ | ⟨htp, hcase⟩
  · rcases hcase with ⟨e, hca, heq⟩ | ⟨hca, hcase⟩
    · rw [heq] at h
      simp at h
    · rcases hcase with ⟨v, s, hme, hhot, heq⟩ | hcase2
      · rw [heq] at h
        simp only [Prod.mk.injEq, PyResult.ok.injEq] at h
        obtain ⟨ht, hc, -, -⟩ := h
        subst ht
        subst hc
        simp [isProbeEvent]
      · rcases hcase2 with ⟨v, e, hme, hhot, heq⟩ | ⟨e2, hme, hcase3⟩
        · rw [heq] at h
          simp at h
        · rcases hcase3 with ⟨e, hcb, heq⟩ | ⟨hcb, hcase4⟩
          · rw [heq] at h
            simp at h
          · rcases hcase4 with ⟨s, hhot, heq⟩ | ⟨e, hhot, heq⟩
            · rw [heq] at h
              simp only [Prod.mk.injEq, PyResult.ok.injEq] at h
              obtain ⟨ht, hc, -, -⟩ := h
              subst ht
              subst hc
              simp [isProbeEvent]
            · rw [heq] at h
              simp at h
  · rcases hcase with ⟨e, hcb, heq⟩ | ⟨hcb, hcase⟩
    · rw [heq] at h
      simp at h
    · rcases hcase with ⟨s, hhot, heq⟩ | ⟨e, hhot, heq⟩
      · rw [heq] at h
        simp only [Prod.mk.injEq, PyResult.ok.injEq] at h
        obtain ⟨ht, hc, -, -⟩ := h
        subst ht
        subst hc
        simp [isProbeEvent]
      · rw [heq] at h
        simp at h

/-- Inversion for raising connection runs: the exception came from a
recorded constructor call or from the recorded probe call. -/
theorem connect_raise_inv (w : World) (cid csec ua : String)
    (u p : Option String) (t : List Event) (e : Exn)
    (h : connectPhase w cid csec ua u p = (t, .raise e)) :
    ∃ c : RedditClient,
      (Event.construct c ∈ t ∧ w.construct c = .raise e) ∨
      (Event.subredditHot c "python" 1 ∈ t ∧
        w.subredditHot c "python" 1 = .raise e) := by
  rcases connectPhase_cases w cid csec ua u p with ⟨htp, hcase⟩ | ⟨htp, hcase⟩
  · rcases hcase with ⟨e1, hca, heq⟩ | ⟨hca, hcase⟩
    · rw [heq] at h
      simp only [Prod.mk.injEq, PyResult.raise.injEq] at h
      obtain ⟨ht, he⟩ := h
      subst ht
      subst he
      exact ⟨mkAuthClient cid csec ua u p, Or.inl ⟨by simp, hca⟩⟩
    · rcases hcase with ⟨v, s, hme, hhot, heq⟩ | hcase2
      · rw [heq] at h
        simp at h
      · rcases hcase2 with ⟨v, e1, hme, hhot, heq⟩ | ⟨e2, hme, hcase3⟩
        · rw [heq] at h
          simp only [Prod.mk.injEq, PyResult.raise.injEq] at h
          obtain ⟨ht, he⟩ := h
          subst ht
          subst he
          exact ⟨mkAuthClient cid csec ua u p, Or.inr ⟨by simp, hhot⟩⟩
        · rcases hcase3 with ⟨e1, hcb, heq⟩ | ⟨hcb, hcase4⟩
          · rw [heq] at h
            simp only [Prod.mk.injEq, PyResult.raise.injEq] at h
            obtain ⟨ht, he⟩ := h
            subst ht
            subst he
            exact ⟨mkRoClient cid csec ua, Or.inl ⟨by simp, hcb⟩⟩
          · rcases hcase4 with ⟨s, hhot, heq⟩ | ⟨e1, hhot, heq⟩
            · rw [heq] at h
              simp at h
            · rw [heq] at h
              simp only [Prod.mk.injEq, PyResult.raise.injEq] at h
              obtain ⟨ht, he⟩ := h
              subst ht
              subst he
              exact ⟨mkRoClient cid csec ua, Or.inr ⟨by simp, hhot⟩⟩
  · rcases hcase with ⟨e1, hcb, heq⟩ | ⟨hcb, hcase⟩
    · rw [heq] at h
      simp only [Prod.mk.injEq, PyResult.raise.injEq] at h
      obtain ⟨ht, he⟩ := h
      subst ht
      subst he
      exact ⟨mkRoClient cid csec ua, Or.inl ⟨by simp, hcb⟩⟩
    · rcases hcase with ⟨s, hhot, heq⟩ | ⟨e1, hhot, heq⟩
      · rw [heq] at h
        simp at h
      · rw [heq] at h
        simp only [Prod.mk.injEq, PyResult.raise.injEq] at h
        obtain ⟨ht, he⟩ := h
        subst ht
        subst he
        exact ⟨mkRoClient cid csec ua, Or.inr ⟨by simp, hhot⟩⟩

/-- The resolution trace is empty or the singleton config-import event. -/
theorem resolveCreds_trace_cases (w : World) :
    (resolveCreds w).trace = [] ∨
    (resolveCreds w).trace = [Event.importConfig] := by
  by_cases hc : (!(truthy (w.getenv "REDDIT_USERNAME")) ||
      !(truthy (w.getenv "REDDIT_PASSWORD"))) = true
  · rcases him : w.importConfig with m | e
    · obtain ⟨u1, hu1⟩ :=
        decrypt_credential_never_raises w m.ENCRYPTED_USERNAME m.ENCRYPTION_KEY
      obtain ⟨p1, hp1⟩ :=
        decrypt_credential_never_raises w m.ENCRYPTED_PASSWORD m.ENCRYPTION_KEY
      cases hup : (!(truthy u1) || !(truthy p1)) <;>
        simp [resolveCreds, hc, him, hu1, hp1, hup]
    · simp [resolveCreds, hc, him]
  · simp [resolveCreds, hc]

/-- C1: every successful run reports auth_mode "authenticated" or
"read-only", and it reports "authenticated" only if the returned client
carries a non-empty username and a non-empty password and the live
identity self-check reddit.user.me() succeeded on that client; every
other successful run reports "read-only". -/
theorem authenticated_requires_creds_and_self_check (w : World)
    (t : List Event) (c : RedditClient) (m : String) (r : Nat)
    (h : setup_reddit_connection w = (t, .ok (c, m, r))) :
    (m = "authenticated" ∧
      (∃ uname, c.username = some uname ∧ uname ≠ "") ∧
      (∃ pword, c.password = some pword ∧ pword ≠ "") ∧
      (∃ v, w.userMe c = .ok v)) ∨
    m = "read-only" := by
  rw [setup_reddit_connection_def w] at h
  simp only [Prod.mk.injEq] at h
  obtain ⟨ht, h2⟩ := h
  have hfull := connect_ok_inv w (resolveCreds w).client_id
    (resolveCreds w).client_secret (resolveCreds w).user_agent
    (resolveCreds w).reddit_username (resolveCreds w).reddit_password
    (connectPhase w (resolveCreds w).client_id (resolveCreds w).client_secret
      (resolveCreds w).user_agent (resolveCreds w).reddit_username
      (resolveCreds w).reddit_password).1 c m r (by rw [← h2])
  rcases hfull.2 with ⟨hu, hp, hc, hmo, -, hme⟩ | ⟨-, hmo, -, -⟩
  · left
    obtain ⟨us, hus, hune⟩ := truthy_eq_true _ hu
    obtain ⟨ps, hps, hpne⟩ := truthy_eq_true _ hp
    subst hc
    exact ⟨hmo, ⟨us, by simp [mkAuthClient, hus], hune⟩,
      ⟨ps, by simp [mkAuthClient, hps], hpne⟩, hme⟩
  · exact Or.inr hmo

/-- C1 witness: in the authenticated-success world the theorem applies to
the concrete successful run, whose auth_mode is "authenticated" with the
credentials and self-check in evidence. -/
theorem authenticated_requires_creds_and_self_check_witness :
    ("authenticated" = "authenticated" ∧
      (∃ uname, (mkAuthClient defaultClientId defaultClientSecret
          defaultUserAgent (some "alice") (some "secret123")).username =
            some uname ∧ uname ≠ "") ∧
      (∃ pword, (mkAuthClient defaultClientId defaultClientSecret
          defaultUserAgent (some "alice") (some "secret123")).password =
            some pword ∧ pword ≠ "") ∧
      (∃ v, authWorld.userMe (mkAuthClient defaultClientId defaultClientSecret
          defaultUserAgent (some "alice") (some "secret123")) = .ok v)) ∨
    "authenticated" = "read-only" :=
  authenticated_requires_creds_and_self_check authWorld
    [Event.construct (mkAuthClient defaultClientId defaultClientSecret
        defaultUserAgent (some "alice") (some "secret123")),
     Event.userMe (mkAuthClient defaultClientId defaultClientSecret
        defaultUserAgent (some "alice") (some "secret123")),
     Event.subredditHot (mkAuthClient defaultClientId defaultClientSecret
        defaultUserAgent (some "alice") (some "secret123")) "python" 1]
    (mkAuthClient defaultClientId defaultClientSecret defaultUserAgent
      (some "alice") (some "secret123")) "authenticated" 600
    (by decide)

/-- C6: when both environment variables are set and non-empty the
encrypted-config import is skipped (the environment pair wins, keeping the
default identity fields), and a successful run whose identity self-check
succeeded returns the authenticated client built from the environment pair
with auth_mode "authenticated" and rate_limit 600. -/
theorem env_pair_wins (w : World)
    (hu : truthy (w.getenv "REDDIT_USERNAME") = true)
    (hp : truthy (w.getenv "REDDIT_PASSWORD") = true) :
    Event.importConfig ∉ (setup_reddit_connection w).1 ∧
    (∀ v, w.userMe (mkAuthClient defaultClientId defaultClientSecret
        defaultUserAgent (w.getenv "REDDIT_USERNAME")
        (w.getenv "REDDIT_PASSWORD")) = .ok v →
      ∀ c mo rl, (setup_reddit_connection w).2 = .ok (c, mo, rl) →
        c = mkAuthClient defaultClientId defaultClientSecret defaultUserAgent
          (w.getenv "REDDIT_USERNAME") (w.getenv "REDDIT_PASSWORD") ∧
        mo = "authenticated" ∧ rl = 600) := by
  have hres := resolveCreds_env w hu hp
  have h1 : (setup_reddit_connection w).1 =
      (connectPhase w defaultClientId defaultClientSecret defaultUserAgent
        (w.getenv "REDDIT_USERNAME") (w.getenv "REDDIT_PASSWORD")).1 := by
    rw [setup_reddit_connection_def w, hres]
    rfl
  have h2 : (setup_reddit_connection w).2 =
      (connectPhase w defaultClientId defaultClientSecret defaultUserAgent
        (w.getenv "REDDIT_USERNAME") (w.getenv "REDDIT_PASSWORD")).2 := by
    rw [setup_reddit_connection_def w, hres]
  constructor
  · rw [h1]
    exact importConfig_not_mem_connect w _ _ _ _ _
  · intro v hv c mo rl hok
    rw [h2] at hok
    have hfull := connect_ok_inv w defaultClientId defaultClientSecret
      defaultUserAgent (w.getenv "REDDIT_USERNAME") (w.getenv "REDDIT_PASSWORD")
      (connectPhase w defaultClientId defaultClientSecret defaultUserAgent
        (w.getenv "REDDIT_USERNAME") (w.getenv "REDDIT_PASSWORD")).1
      c mo rl (by rw [← hok])
    rcases hfull.2 with ⟨-, -, hc, hmo, hrl, -⟩ | ⟨-, -, -, hor⟩
    · exact ⟨hc, hmo, hrl⟩
    · rcases hor with hor | ⟨e2, he2⟩
      · rw [hu, hp] at hor
        simp at hor
      · rw [hv] at he2
        simp at he2

/-- C6 witness: the authenticated-success world satisfies the premises and
the conclusion at the concrete successful run. -/
theorem env_pair_wins_witness :
    Event.importConfig ∉ (setup_reddit_connection authWorld).1 ∧
    (mkAuthClient defaultClientId defaultClientSecret defaultUserAgent
       (some "alice") (some "secret123") =
     mkAuthClient defaultClientId defaultClientSecret defaultUserAgent
       (authWorld.getenv "REDDIT_USERNAME")
       (authWorld.getenv "REDDIT_PASSWORD") ∧
     "authenticated" = "authenticated" ∧ (600 : Nat) = 600) := by
  have h := env_pair_wins authWorld (by decide) (by decide)
  exact ⟨h.1, h.2 "alice" rfl _ _ _ (by decide)⟩

/-- C7: with neither environment variable set and an unimportable config
module, the run proceeds read-only on the built-in default identity
fields: the default read-only client is constructed, and any successful
outcome is that client with auth_mode "read-only" and rate_limit 60. -/
theorem no_sources_read_only (w : World) (e : Exn)
    (hu : w.getenv "REDDIT_USERNAME" = none)
    (hp : w.getenv "REDDIT_PASSWORD" = none)
    (him : w.importConfig = .raise e) (hie : e.isImportError = true) :
    Event.construct (mkRoClient defaultClientId defaultClientSecret
      defaultUserAgent) ∈ (setup_reddit_connection w).1 ∧
    (∀ c mo rl, (setup_reddit_connection w).2 = .ok (c, mo, rl) →
      c = mkRoClient defaultClientId defaultClientSecret defaultUserAgent ∧
      mo = "read-only" ∧ rl = 60) := by
  have hres := resolveCreds_noConfig w e (Or.inl (by rw [hu]; rfl)) him
  rw [hu, hp] at hres
  have h1 : (setup_reddit_connection w).1 =
      Event.importConfig ::
        (connectPhase w defaultClientId defaultClientSecret defaultUserAgent
          none none).1 := by
    rw [setup_reddit_connection_def w, hres]
    rfl
  have h2 : (setup_reddit_connection w).2 =
      (connectPhase w defaultClientId defaultClientSecret defaultUserAgent
        none none).2 := by
    rw [setup_reddit_connection_def w, hres]
  constructor
  · rw [h1]
    exact List.mem_cons_of_mem _
      (connect_constructs_ro w defaultClientId defaultClientSecret
        defaultUserAgent none none rfl)
  · intro c mo rl hok
    rw [h2] at hok
    have hfull := connect_ok_inv w defaultClientId defaultClientSecret
      defaultUserAgent none none
      (connectPhase w defaultClientId defaultClientSecret defaultUserAgent
        none none).1 c mo rl (by rw [← hok])
    rcases hfull.2 with ⟨htu, -⟩ | ⟨hc, hmo, hrl, -⟩
    · exact absurd htu (by decide)
    · exact ⟨hc, hmo, hrl⟩

/-- C7 witness: the credential-free world satisfies the premises and the
conclusion at the concrete successful run. -/
theorem no_sources_read_only_witness :
    Event.construct (mkRoClient defaultClientId defaultClientSecret
      defaultUserAgent) ∈ (setup_reddit_connection noCredWorld).1 ∧
    (mkRoClient defaultClientId defaultClientSecret defaultUserAgent =
       mkRoClient defaultClientId defaultClientSecret defaultUserAgent ∧
     "read-only" = "read-only" ∧ (60 : Nat) = 60) := by
  have h := no_sources_read_only noCredWorld
    ⟨true, "No module named reddit_config_encrypted"⟩ rfl rfl rfl rfl
  exact ⟨h.1, h.2 _ _ _ (by decide)⟩

/-- C10: whenever the environment pair is incomplete and the config
module imports successfully, every client constructed during the run carries the
config module's client id, client secret and user agent in place of the
built-in defaults, including when decryption fails and the run stays
read-only. -/
theorem config_identity_fields_used (w : World) (cfg : ConfigModule)
    (hb : truthy (w.getenv "REDDIT_USERNAME") = false ∨
          truthy (w.getenv "REDDIT_PASSWORD") = false)
    (him : w.importConfig = .ok cfg) :
    ∀ c, Event.construct c ∈ (setup_reddit_connection w).1 →
      c.client_id = cfg.REDDIT_CLIENT_ID ∧
      c.client_secret = cfg.REDDIT_CLIENT_SECRET ∧
      c.user_agent = cfg.USER_AGENT := by
  obtain ⟨hid, hsec, hua, htr⟩ := resolveCreds_config w cfg hb him
  intro c hmem
  rw [setup_reddit_connection_def w, htr] at hmem
  simp only [List.cons_append, List.nil_append, List.mem_cons] at hmem
  rcases hmem with hmem | hmem
  · cases hmem
  · rcases connect_trace_clients w _ _ _ _ _ c hmem with hc | hc
    · subst hc
      simp [mkAuthClient, hid, hsec, hua]
    · subst hc
      simp [mkRoClient, hid, hsec, hua]

/-- C10 witness: in the wrong-key world the read-only client constructed
during the run carries the config module's identity fields. -/
theorem config_identity_fields_used_witness :
    (mkRoClient "cfg-id" "cfg-secret" "cfg-agent/1.0").client_id =
      cfg0.REDDIT_CLIENT_ID ∧
    (mkRoClient "cfg-id" "cfg-secret" "cfg-agent/1.0").client_secret =
      cfg0.REDDIT_CLIENT_SECRET ∧
    (mkRoClient "cfg-id" "cfg-secret" "cfg-agent/1.0").user_agent =
      cfg0.USER_AGENT :=
  config_identity_fields_used cfgWorld cfg0 (Or.inl rfl) rfl
    (mkRoClient "cfg-id" "cfg-secret" "cfg-agent/1.0") (by decide)

/-- C3: if either credential field of the imported config decrypts to
nothing, both fields are discarded (no half-resolved pair) and the run is
exactly the no-credential connection path over the config identity
fields; any successful outcome is read-only with rate 60, and the
decryption step itself never raises. -/
theorem decrypt_failure_like_no_credentials (w : World) (cfg : ConfigModule)
    (hb : truthy (w.getenv "REDDIT_USERNAME") = false ∨
          truthy (w.getenv "REDDIT_PASSWORD") = false)
    (him : w.importConfig = .ok cfg)
    (hd : decrypt_credential w cfg.ENCRYPTED_USERNAME cfg.ENCRYPTION_KEY =
            .ok none ∨
          decrypt_credential w cfg.ENCRYPTED_PASSWORD cfg.ENCRYPTION_KEY =
            .ok none) :
    (resolveCreds w).reddit_username = none ∧
    (resolveCreds w).reddit_password = none ∧
    setup_reddit_connection w =
      (Event.importConfig ::
        (connectPhase w cfg.REDDIT_CLIENT_ID cfg.REDDIT_CLIENT_SECRET
          cfg.USER_AGENT none none).1,
       (connectPhase w cfg.REDDIT_CLIENT_ID cfg.REDDIT_CLIENT_SECRET
          cfg.USER_AGENT none none).2) ∧
    (∀ c mo rl, (setup_reddit_connection w).2 = .ok (c, mo, rl) →
      mo = "read-only" ∧ rl = 60) ∧
    (∀ e, decrypt_credential w cfg.ENCRYPTED_USERNAME cfg.ENCRYPTION_KEY ≠
      .raise e) ∧
    (∀ e, decrypt_credential w cfg.ENCRYPTED_PASSWORD cfg.ENCRYPTION_KEY ≠
      .raise e) := by
  have hres := resolveCreds_decrypt_failed w cfg hb him hd
  have h2 : (setup_reddit_connection w).2 =
      (connectPhase w cfg.REDDIT_CLIENT_ID cfg.REDDIT_CLIENT_SECRET
        cfg.USER_AGENT none none).2 := by
    rw [setup_reddit_connection_def w, hres]
  refine ⟨by rw [hres], by rw [hres], ?_, ?_, ?_, ?_⟩
  · rw [setup_reddit_connection_def w, hres]
    rfl
  · intro c mo rl hok
    rw [h2] at hok
    have hfull := connect_ok_inv w cfg.REDDIT_CLIENT_ID cfg.REDDIT_CLIENT_SECRET
      cfg.USER_AGENT none none
      (connectPhase w cfg.REDDIT_CLIENT_ID cfg.REDDIT_CLIENT_SECRET
        cfg.USER_AGENT none none).1 c mo rl (by rw [← hok])
    rcases hfull.2 with ⟨htu, -⟩ | ⟨-, hmo, hrl, -⟩
    · exact absurd htu (by decide)
    · exact ⟨hmo, hrl⟩
  · intro e hcontra
    obtain ⟨r0, hr0⟩ :=
      decrypt_credential_never_raises w cfg.ENCRYPTED_USERNAME cfg.ENCRYPTION_KEY
    rw [hr0] at hcontra
    exact absurd hcontra (by simp)
  · intro e hcontra
    obtain ⟨r0, hr0⟩ :=
      decrypt_credential_never_raises w cfg.ENCRYPTED_PASSWORD cfg.ENCRYPTION_KEY
    rw [hr0] at hcontra
    exact absurd hcontra (by simp)

/-- C3 witness: the wrong-key world instantiates the theorem, with its
successful run read-only. -/
theorem decrypt_failure_like_no_credentials_witness :
    (resolveCreds cfgWorld).reddit_username = none ∧
    (resolveCreds cfgWorld).reddit_password = none ∧
    ("read-only" = "read-only" ∧ (60 : Nat) = 60) := by
  have h := decrypt_failure_like_no_credentials cfgWorld cfg0 (Or.inl rfl) rfl
    (Or.inl (by decide))
  exact ⟨h.1, h.2.1, h.2.2.2.1
    (mkRoClient "cfg-id" "cfg-secret" "cfg-agent/1.0") "read-only" 60
    (by decide)⟩

/-- C2 counterexample: in a world whose connectivity probe always
succeeds but whose authenticated praw.Reddit construction raises, the
resolver re-raises that constructor exception with zero probe events in
its trace, so it can fail without the final probe having raised. -/
theorem setup_raises_without_probe :
    truthy (constructFailWorld.getenv "REDDIT_USERNAME") = true ∧
    truthy (constructFailWorld.getenv "REDDIT_PASSWORD") = true ∧
    (setup_reddit_connection constructFailWorld).2 =
      .raise ⟨false, "praw configuration error"⟩ ∧
    probeCount (setup_reddit_connection constructFailWorld).1 = 0 := by
  decide

/-- C2 (amended): setup_reddit_connection raises only when a praw.Reddit
constructor call or the final connectivity probe raises; missing config,
decode/decrypt failures and failed self-checks are absorbed into a lower
trust tier, so the caller gets either a (client, auth_mode, rate_limit)
triple or an exception originating from a recorded constructor call or
from the recorded probe call. -/
theorem setup_raise_sources (w : World) (t : List Event) (e : Exn)
    (h : setup_reddit_connection w = (t, .raise e)) :
    ∃ c : RedditClient,
      (Event.construct c ∈ t ∧ w.construct c = .raise e) ∨
      (Event.subredditHot c "python" 1 ∈ t ∧
        w.subredditHot c "python" 1 = .raise e) := by
  rw [setup_reddit_connection_def w] at h
  simp only [Prod.mk.injEq] at h
  obtain ⟨ht, h2⟩ := h
  obtain ⟨c, hc⟩ := connect_raise_inv w (resolveCreds w).client_id
    (resolveCreds w).client_secret (resolveCreds w).user_agent
    (resolveCreds w).reddit_username (resolveCreds w).reddit_password
    (connectPhase w (resolveCreds w).client_id (resolveCreds w).client_secret
      (resolveCreds w).user_agent (resolveCreds w).reddit_username
      (resolveCreds w).reddit_password).1 e (by rw [← h2])
  refine ⟨c, ?_⟩
  subst ht
  rcases hc with ⟨hm, hw⟩ | ⟨hm, hw⟩
  · exact Or.inl ⟨List.mem_append_right _ hm, hw⟩
  · exact Or.inr ⟨List.mem_append_right _ hm, hw⟩

/-- C2 witness: in the offline world the raised exception is the recorded
probe call's. -/
theorem setup_raise_sources_witness :
    ∃ c : RedditClient,
      (Event.construct c ∈ (setup_reddit_connection probeFailWorld).1 ∧
        probeFailWorld.construct c = .raise ⟨false, "connection refused"⟩) ∨
      (Event.subredditHot c "python" 1 ∈
          (setup_reddit_connection probeFailWorld).1 ∧
        probeFailWorld.subredditHot c "python" 1 =
          .raise ⟨false, "connection refused"⟩) :=
  setup_raise_sources probeFailWorld
    (setup_reddit_connection probeFailWorld).1
    ⟨false, "connection refused"⟩ (by decide)

/-- C4 counterexample: with a credential pair in effect and a raising
self-check, the read-only reconstruction itself raises, so the run ends in
that constructor exception, never reaching the connectivity probe. -/
theorem self_check_fallback_can_skip_probe :
    truthy (roCtorFailWorld.getenv "REDDIT_USERNAME") = true ∧
    truthy (roCtorFailWorld.getenv "REDDIT_PASSWORD") = true ∧
    roCtorFailWorld.userMe (mkAuthClient defaultClientId defaultClientSecret
      defaultUserAgent (some "alice") (some "secret123")) =
      .raise ⟨false, "received 401 HTTP response"⟩ ∧
    Event.userMe (mkAuthClient defaultClientId defaultClientSecret
      defaultUserAgent (some "alice") (some "secret123")) ∈
      (setup_reddit_connection roCtorFailWorld).1 ∧
    (setup_reddit_connection roCtorFailWorld).2 =
      .raise ⟨false, "fallback constructor failed"⟩ ∧
    probeCount (setup_reddit_connection roCtorFailWorld).1 = 0 := by
  decide

/-- C4 (amended): when a credential pair is in effect, the authenticated
client constructs, and the identity self-check raises, the resolver does
not propagate the self-check exception: it attempts a read-only client
with the same identity fields, and provided that reconstruction succeeds
it still performs the connectivity probe, returning that client with
auth_mode "read-only" and rate 60 on probe success and re-raising exactly
what the probe raises otherwise. -/
theorem self_check_failure_falls_back (w : World) (e2 : Exn)
    (hu : truthy (resolveCreds w).reddit_username = true)
    (hp : truthy (resolveCreds w).reddit_password = true)
    (hca : w.construct (mkAuthClient (resolveCreds w).client_id
      (resolveCreds w).client_secret (resolveCreds w).user_agent
      (resolveCreds w).reddit_username (resolveCreds w).reddit_password) =
      .ok ())
    (hme : w.userMe (mkAuthClient (resolveCreds w).client_id
      (resolveCreds w).client_secret (resolveCreds w).user_agent
      (resolveCreds w).reddit_username (resolveCreds w).reddit_password) =
      .raise e2)
    (hcb : w.construct (mkRoClient (resolveCreds w).client_id
      (resolveCreds w).client_secret (resolveCreds w).user_agent) = .ok ()) :
    Event.subredditHot (mkRoClient (resolveCreds w).client_id
      (resolveCreds w).client_secret (resolveCreds w).user_agent) "python" 1 ∈
      (setup_reddit_connection w).1 ∧
    ((setup_reddit_connection w).2 =
        .ok (mkRoClient (resolveCreds w).client_id
          (resolveCreds w).client_secret (resolveCreds w).user_agent,
          "read-only", 60) ∨
      (∃ e3, w.subredditHot (mkRoClient (resolveCreds w).client_id
          (resolveCreds w).client_secret (resolveCreds w).user_agent)
          "python" 1 = .raise e3 ∧
        (setup_reddit_connection w).2 = .raise e3)) := by
  have hs1 : (setup_reddit_connection w).1 =
      (resolveCreds w).trace ++
        (connectPhase w (resolveCreds w).client_id (resolveCreds w).client_secret
          (resolveCreds w).user_agent (resolveCreds w).reddit_username
          (resolveCreds w).reddit_password).1 := by
    rw [setup_reddit_connection_def w]
  have hs2 : (setup_reddit_connection w).2 =
      (connectPhase w (resolveCreds w).client_id (resolveCreds w).client_secret
        (resolveCreds w).user_agent (resolveCreds w).reddit_username
        (resolveCreds w).reddit_password).2 := by
    rw [setup_reddit_connection_def w]
  rcases connectPhase_cases w (resolveCreds w).client_id
      (resolveCreds w).client_secret (resolveCreds w).user_agent
      (resolveCreds w).reddit_username (resolveCreds w).reddit_password with
    ⟨htp, hcase⟩ | ⟨htp, hcase⟩
  · rcases hcase with ⟨e1, hca', heq⟩ | ⟨hca', hcase⟩
    · simp [hca] at hca'
    · rcases hcase with ⟨v, s, hme', hhot, heq⟩ | hcase2
      · simp [hme] at hme'
      · rcases hcase2 with ⟨v, e1, hme', hhot, heq⟩ | ⟨e4, hme', hcase3⟩
        · simp [hme] at hme'
        · rcases hcase3 with ⟨e1, hcb', heq⟩ | ⟨hcb', hcase4⟩
          · simp [hcb] at hcb'
          · rcases hcase4 with ⟨s, hhot, heq⟩ | ⟨e1, hhot, heq⟩
            · refine ⟨?_, Or.inl ?_⟩
              · rw [hs1, heq]
                simp
              · rw [hs2, heq]
            · refine ⟨?_, Or.inr ⟨e1, hhot, ?_⟩⟩
              · rw [hs1, heq]
                simp
              · rw [hs2, heq]
  · rw [hu, hp] at htp
    simp at htp

/-- C4 witness: in the failing-self-check world the fallback succeeds and
the probe runs to a read-only success. -/
theorem self_check_failure_falls_back_witness :
    Event.subredditHot (mkRoClient (resolveCreds selfCheckFailWorld).client_id
      (resolveCreds selfCheckFailWorld).client_secret
      (resolveCreds selfCheckFailWorld).user_agent) "python" 1 ∈
      (setup_reddit_connection selfCheckFailWorld).1 ∧
    ((setup_reddit_connection selfCheckFailWorld).2 =
        .ok (mkRoClient (resolveCreds selfCheckFailWorld).client_id
          (resolveCreds selfCheckFailWorld).client_secret
          (resolveCreds selfCheckFailWorld).user_agent, "read-only", 60) ∨
      (∃ e3, selfCheckFailWorld.subredditHot
          (mkRoClient (resolveCreds selfCheckFailWorld).client_id
            (resolveCreds selfCheckFailWorld).client_secret
            (resolveCreds selfCheckFailWorld).user_agent) "python" 1 =
          .raise e3 ∧
        (setup_reddit_connection selfCheckFailWorld).2 = .raise e3)) :=
  self_check_failure_falls_back selfCheckFailWorld
    ⟨false, "received 401 HTTP response"⟩
    (by decide) (by decide) (by decide) (by decide) (by decide)

/-- C5: a successful run's trace records exactly one probe event, the
fetch of one hot listing item from the public subreddit "python" with the
returned client, on the authenticated and read-only paths alike; and when
the world raises on a recorded probe, the resolver prints the remediation
banner and re-raises that same exception. -/
theorem probe_contract (w : World) :
    (∀ c, Event.subredditHot c "python" 1 ∈ (setup_reddit_connection w).1 →
      ∀ e, w.subredditHot c "python" 1 = .raise e →
        (setup_reddit_connection w).2 = .raise e ∧
        Event.print "💡 Possible solutions:" ∈ (setup_reddit_connection w).1) ∧
    (∀ t c mo rl, setup_reddit_connection w = (t, .ok (c, mo, rl)) →
      t.filter isProbeEvent = [Event.subredditHot c "python" 1]) := by
  have hs1 : (setup_reddit_connection w).1 =
      (resolveCreds w).trace ++
        (connectPhase w (resolveCreds w).client_id (resolveCreds w).client_secret
          (resolveCreds w).user_agent (resolveCreds w).reddit_username
          (resolveCreds w).reddit_password).1 := by
    rw [setup_reddit_connection_def w]
  have hs2 : (setup_reddit_connection w).2 =
      (connectPhase w (resolveCreds w).client_id (resolveCreds w).client_secret
        (resolveCreds w).user_agent (resolveCreds w).reddit_username
        (resolveCreds w).reddit_password).2 := by
    rw [setup_reddit_connection_def w]
  constructor
  · intro c hmem e hpe
    rw [hs1, List.mem_append] at hmem
    rcases hmem with hmem | hmem
    · exfalso
      rcases resolveCreds_trace_cases w with h0 | h0 <;> rw [h0] at hmem <;>
        simp at hmem
    · have hres := connect_probe_raise w (resolveCreds w).client_id
        (resolveCreds w).client_secret (resolveCreds w).user_agent
        (resolveCreds w).reddit_username (resolveCreds w).reddit_password
        c hmem e hpe
      refine ⟨by rw [hs2]; exact hres.1, ?_⟩
      rw [hs1]
      exact List.mem_append_right _ hres.2
  · intro t c mo rl h
    rw [setup_reddit_connection_def w] at h
    simp only [Prod.mk.injEq] at h
    obtain ⟨ht, h2⟩ := h
    have hpf := connect_ok_probe_unique w (resolveCreds w).client_id
      (resolveCreds w).client_secret (resolveCreds w).user_agent
      (resolveCreds w).reddit_username (resolveCreds w).reddit_password
      (connectPhase w (resolveCreds w).client_id (resolveCreds w).client_secret
        (resolveCreds w).user_agent (resolveCreds w).reddit_username
        (resolveCreds w).reddit_password).1 c mo rl (by rw [← h2])
    subst ht
    rw [List.filter_append, hpf]
    rcases resolveCreds_trace_cases w with h0 | h0 <;> rw [h0] <;>
      simp [isProbeEvent]

/-- C5 witness: in the offline world the probe's exception is re-raised
and the remediation banner was printed. -/
theorem probe_contract_witness :
    (setup_reddit_connection probeFailWorld).2 =
      .raise ⟨false, "connection refused"⟩ ∧
    Event.print "💡 Possible solutions:" ∈
      (setup_reddit_connection probeFailWorld).1 :=
  (probe_contract probeFailWorld).1
    (mkRoClient defaultClientId defaultClientSecret defaultUserAgent)
    (by decide) ⟨false, "connection refused"⟩ rfl

end RedditAuth
